import Mathlib

/-!
Verification of the income-and-expense backend against its specification.

The definitions below are a shallow embedding of the JavaScript sources:
the Mongoose models (`src/models/User.js`, `src/models/Category.js`, the
transaction model) and the Express route handlers
(`src/routes/users.js`, `src/routes/categories.js`, the transaction and
analytics routers).  JS numbers carrying money amounts are modelled as
rationals, timestamps (`Date.now()` milliseconds) as integers, Mongo
ObjectIds as naturals, and the three Mongo collections as lists.  A
route handler becomes a function from a store (plus request data) to a
response paired with the new store.  `crypto.randomInt` is modelled as a
function of an entropy argument, and `bcrypt.compare` as an explicit
comparison-oracle parameter of the one handler that uses it.
-/

namespace IncomeExpense

/-- The `type` enum shared by categories and transactions. -/
inductive CatType
| income
| expense
deriving DecidableEq, Repr

/-- The transaction `status` enum. -/
inductive TxStatus
| completed
| pending
| cancelled
deriving DecidableEq, Repr

/-- The `location` subdocument of a transaction. -/
structure Location where
  name : String
  lat : ℚ
  lng : ℚ
deriving DecidableEq, Repr

/-- The `recurringPattern.frequency` enum. -/
inductive Frequency
| daily
| weekly
| monthly
| yearly
deriving DecidableEq, Repr

/-- The `recurringPattern` subdocument of a transaction. -/
structure RecurringPattern where
  frequency : Frequency
  interval : Nat
  endDate : Option Int
  nextDueDate : Option Int
deriving DecidableEq, Repr

/-- A category document (`src/models/Category.js`). -/
structure Category where
  id : Nat
  user : Nat
  name : String
  type : CatType
  icon : String
  color : String
  description : Option String
  isDefault : Bool
  isActive : Bool
deriving DecidableEq, Repr

/-- A transaction document (transaction model schema). -/
structure Transaction where
  id : Nat
  user : Nat
  title : String
  description : Option String
  amount : ℚ
  type : CatType
  category : Nat
  date : Int
  tags : List String
  location : Option Location
  isRecurring : Bool
  recurringPattern : Option RecurringPattern
  status : TxStatus
  notes : Option String
deriving DecidableEq, Repr

/-- A user document (`src/models/User.js`).  `password` holds the bcrypt
hash.  Ephemeral token fields are `Option`s: `none` models the field
being `undefined` in the document. -/
structure User where
  id : Nat
  name : String
  email : String
  password : String
  avatar : String
  phone : String
  currency : String
  timezone : String
  isEmailVerified : Bool
  isActive : Bool
  isTwoFactorEnabled : Bool
  otpCode : Option String
  otpExpires : Option Int
  emailChangeOTP : Option String
  emailChangeOTPExpires : Option Int
  pendingEmail : Option String
deriving DecidableEq, Repr

/-- The three Mongo collections. -/
structure Store where
  users : List User
  categories : List Category
  transactions : List Transaction
deriving DecidableEq, Repr

/-- The observable part of an HTTP response: status code, the `success`
flag and the `message` of the JSON body. -/
structure Resp where
  status : Nat
  success : Bool
  message : String
deriving DecidableEq, Repr

/-- `User.findById` (the collection is keyed by `_id`). -/
def findUser (s : Store) (uid : Nat) : Option User :=
  s.users.find? (fun u => u.id == uid)

/-- Write back a user document by `_id` (a `save()` of a fetched user). -/
def saveUser (s : Store) (u : User) : Store :=
  { s with users := s.users.map (fun v => if v.id == u.id then u else v) }

/-- `crypto.randomInt(min, max)`: a uniformly random integer `n` with
`min <= n < max` (the upper bound is exclusive), here as a function of
an entropy value `r`. -/
def randomInt (lo hi : Nat) (r : Nat) : Nat :=
  lo + r % (hi - lo)

/-- Ten minutes in milliseconds. -/
def tenMinutesMs : Int := 10 * 60 * 1000

/-- The OTP string produced from entropy `r`:
`crypto.randomInt(100000, 999999).toString()`. -/
def otpFromEntropy (r : Nat) : String :=
  toString (randomInt 100000 999999 r)

/-- `userSchema.methods.generateOTP` (User.js lines 144-150). -/
def User.generateOTP (u : User) (r : Nat) (now : Int) : String × User :=
  let otp := otpFromEntropy r
  (otp, { u with otpCode := some otp, otpExpires := some (now + tenMinutesMs) })

/-- `userSchema.methods.verifyOTP` (User.js lines 153-163): fails when the
code or the expiry is absent, fails when the expiry is in the past,
otherwise compares for equality. -/
def User.verifyOTP (u : User) (code : String) (now : Int) : Bool :=
  match u.otpCode, u.otpExpires with
  | some stored, some expires =>
      if expires < now then false else stored == code
  | _, _ => false

/-- `userSchema.methods.clearOTP` (User.js lines 166-169). -/
def User.clearOTP (u : User) : User :=
  { u with otpCode := none, otpExpires := none }

/-- `userSchema.methods.generateEmailChangeOTP` (User.js lines 172-178). -/
def User.generateEmailChangeOTP (u : User) (r : Nat) (now : Int) : String × User :=
  let otp := otpFromEntropy r
  (otp, { u with emailChangeOTP := some otp,
                 emailChangeOTPExpires := some (now + tenMinutesMs) })

/-- `userSchema.methods.verifyEmailChangeOTP` (User.js lines 181-191). -/
def User.verifyEmailChangeOTP (u : User) (code : String) (now : Int) : Bool :=
  match u.emailChangeOTP, u.emailChangeOTPExpires with
  | some stored, some expires =>
      if expires < now then false else stored == code
  | _, _ => false

/-- `userSchema.methods.clearEmailChangeOTP` (User.js lines 194-197). -/
def User.clearEmailChangeOTP (u : User) : User :=
  { u with emailChangeOTP := none, emailChangeOTPExpires := none }

/-- JavaScript `String.prototype.toLowerCase` on the character list (the
sources only apply it to ASCII email addresses). -/
def jsToLower (s : String) : String :=
  ⟨s.data.map Char.toLower⟩

/-- JavaScript `String.prototype.trim` on the character list. -/
def jsTrim (s : String) : String :=
  ⟨((s.data.dropWhile (fun c => c.isWhitespace)).reverse.dropWhile
      (fun c => c.isWhitespace)).reverse⟩

/-- Abstraction of the express-validator `isEmail` check used by
`POST /api/users/request-email-change` (the exact format predicate is
irrelevant to the properties proved here; what matters is that a failed
check short-circuits with a 400 before any mutation). -/
def isEmailLike (s : String) : Bool :=
  s.data.contains '@'

/-- `POST /api/users/request-email-change` (users.js lines 270-338).
`sendOk` is the outcome of the awaited
`sendEmailChangeOTPEmail` call (`false` models the call throwing), `r` the
entropy consumed by `generateEmailChangeOTP` and `now` the clock. -/
def requestEmailChange (s : Store) (uid : Nat) (newEmail : String)
    (sendOk : Bool) (r : Nat) (now : Int) : Resp × Store :=
  if !(isEmailLike newEmail) then
    (⟨400, false, "Validation failed"⟩, s)
  else
    match findUser s uid with
    | none => (⟨401, false, "Unauthorized"⟩, s)
    | some user =>
      if jsToLower newEmail == jsToLower user.email then
        (⟨400, false, "New email must be different from current email"⟩, s)
      else if s.users.any (fun u => u.email == jsToLower newEmail) then
        (⟨400, false, "Email is already in use"⟩, s)
      else
        let p := user.generateEmailChangeOTP r now
        let staged := { p.2 with pendingEmail := some (jsToLower newEmail) }
        let s1 := saveUser s staged
        if sendOk then
          (⟨200, true, "Verification code sent to your new email address"⟩, s1)
        else
          let rolledBack :=
            { staged with pendingEmail := none }.clearEmailChangeOTP
          (⟨500, false, "Failed to send verification email. Please try again."⟩,
           saveUser s1 rolledBack)

/-- `POST /api/users/verify-email-change` (users.js lines 343-405). -/
def verifyEmailChange (s : Store) (uid : Nat) (otp : String) (now : Int) :
    Resp × Store :=
  if otp == "" || otp.length != 6 then
    (⟨400, false, "Validation failed"⟩, s)
  else
    match findUser s uid with
    | none => (⟨400, false, "No pending email change request found"⟩, s)
    | some user =>
      match user.pendingEmail with
      | none => (⟨400, false, "No pending email change request found"⟩, s)
      | some pe =>
        if user.verifyEmailChangeOTP otp now then
          let u1 := { user with email := pe, isEmailVerified := true,
                                pendingEmail := none }.clearEmailChangeOTP
          (⟨200, true, "Email updated successfully"⟩, saveUser s u1)
        else
          (⟨400, false, "Invalid or expired verification code"⟩, s)

/-- Modelled from the spec: the 2FA login `POST /verify-otp` handler is not
among the provided sources (only the User model methods it calls are).
Per the spec, it verifies the submitted code with `verifyOTP`; an absent
code, an elapsed expiry and a mismatch all yield one identical
InvalidOrExpiredOTP client error, and on success the OTP pair is cleared
(single use) before the session is issued. -/
def verifyLoginOTP (s : Store) (uid : Nat) (code : String) (now : Int) :
    Resp × Store :=
  match findUser s uid with
  | none => (⟨400, false, "Invalid or expired OTP"⟩, s)
  | some user =>
    if user.verifyOTP code now then
      (⟨200, true, "Login successful"⟩, saveUser s user.clearOTP)
    else
      (⟨400, false, "Invalid or expired OTP"⟩, s)

/-- `DELETE /api/users/account` (users.js lines 210-265).  `compare` is the
`bcrypt.compare` oracle (candidate plaintext against stored hash); the
handler is parametric in it.  A `none` or empty supplied password is the
falsy `!password` guard. -/
def deleteAccount (compare : String → String → Bool) (s : Store) (uid : Nat)
    (password : Option String) : Resp × Store :=
  if password.isNone || password == some "" then
    (⟨400, false, "Password is required to delete account"⟩, s)
  else
    match findUser s uid with
    | none => (⟨404, false, "User not found"⟩, s)
    | some user =>
      if compare (password.getD "") user.password then
        (⟨200, true, "Account and all associated data deleted successfully"⟩,
         { users := s.users.filter (fun u => u.id != uid),
           categories := s.categories.filter (fun c => c.user != uid),
           transactions := s.transactions.filter (fun t => t.user != uid) })
      else
        (⟨400, false, "Invalid password"⟩, s)

/-- The currency whitelist of the `PUT /api/users/profile` validator
(users.js lines 85-88). -/
def profileCurrencies : List String :=
  ["USD", "EUR", "GBP", "INR", "CAD", "AUD", "JPY", "CNY"]

/-- The `currency` enum of the user schema (User.js lines 35-39). -/
def userCurrencyEnum : List String :=
  ["USD", "EUR", "GBP", "INR", "CAD", "AUD", "JPY", "CNY", "BDT"]

/-- A `PUT /api/users/profile` request body; `none` marks an absent field. -/
structure ProfileUpdateBody where
  name : Option String
  phone : Option String
  currency : Option String
  timezone : Option String
deriving DecidableEq, Repr

/-- The express-validator chain of `PUT /api/users/profile`
(users.js lines 75-93): every present field must pass its check. -/
def validProfileBody (b : ProfileUpdateBody) : Bool :=
  (match b.name with
   | some n => 2 ≤ (jsTrim n).length && (jsTrim n).length ≤ 50
   | none => true) &&
  (match b.phone with
   | some p => (jsTrim p).length ≤ 20
   | none => true) &&
  (match b.currency with
   | some c => profileCurrencies.contains c
   | none => true) &&
  (match b.timezone with
   | some t => (jsTrim t).length ≤ 50
   | none => true)

/-- `PUT /api/users/profile` (users.js lines 73-134): validate, then apply
the `allowedUpdates` (name, phone, currency, timezone) present in the
body via `findByIdAndUpdate`. -/
def updateProfile (s : Store) (uid : Nat) (b : ProfileUpdateBody) :
    Resp × Store :=
  if !(validProfileBody b) then
    (⟨400, false, "Validation failed"⟩, s)
  else
    match findUser s uid with
    | none => (⟨500, false, "Server error"⟩, s)
    | some _ =>
      let s1 := { s with users := s.users.map (fun u =>
        if u.id == uid then
          { u with name := b.name.getD u.name,
                   phone := b.phone.getD u.phone,
                   currency := b.currency.getD u.currency,
                   timezone := b.timezone.getD u.timezone }
        else u) }
      (⟨200, true, "Profile updated successfully"⟩, s1)

/-- `Category.findOne including id, user and isActive: true` — the lookup
shared by the GET/PUT/DELETE `/api/categories/:id` handlers. -/
def findActiveCategory (s : Store) (cid uid : Nat) : Option Category :=
  s.categories.find? (fun c => c.id == cid && c.user == uid && c.isActive)

/-- The `/^#[0-9A-F]{6}$/i` colour check of the category validators. -/
def isHexColor (s : String) : Bool :=
  match s.data with
  | '#' :: rest =>
    rest.length == 6 && rest.all (fun ch =>
      ch.isDigit || ('A' ≤ ch && ch ≤ 'F') || ('a' ≤ ch && ch ≤ 'f'))
  | _ => false

/-- A `PUT /api/categories/:id` request body. -/
structure CatUpdateBody where
  name : Option String
  icon : Option String
  color : Option String
  description : Option String
deriving DecidableEq, Repr

/-- The express-validator chain of `PUT /api/categories/:id`
(categories.js lines 147-165). -/
def validCatUpdateBody (b : CatUpdateBody) : Bool :=
  (match b.name with
   | some n => 1 ≤ (jsTrim n).length && (jsTrim n).length ≤ 50
   | none => true) &&
  (match b.icon with
   | some i => (jsTrim i).length ≤ 10
   | none => true) &&
  (match b.color with
   | some c => isHexColor c
   | none => true) &&
  (match b.description with
   | some d => (jsTrim d).length ≤ 200
   | none => true)

/-- `PUT /api/categories/:id` (categories.js lines 145-235): validate,
resolve the active category of the caller, refuse default categories,
then apply the `allowedUpdates` (name, icon, color, description) via
`findByIdAndUpdate`. -/
def updateCategory (s : Store) (uid cid : Nat) (b : CatUpdateBody) :
    Resp × Store :=
  if !(validCatUpdateBody b) then
    (⟨400, false, "Validation failed"⟩, s)
  else
    match findActiveCategory s cid uid with
    | none => (⟨404, false, "Category not found"⟩, s)
    | some cat =>
      if cat.isDefault then
        (⟨400, false, "Cannot update default categories"⟩, s)
      else
        let s1 := { s with categories := s.categories.map (fun c =>
          if c.id == cid then
            { c with name := b.name.getD c.name,
                     icon := b.icon.getD c.icon,
                     color := b.color.getD c.color,
                     description := match b.description with
                       | some d => some d
                       | none => c.description }
          else c) }
        (⟨200, true, "Category updated successfully"⟩, s1)

/-- `DELETE /api/categories/:id` (categories.js lines 240-277): resolve
the active category of the caller, refuse default categories, then
soft-delete via `findByIdAndUpdate` setting `isActive: false` only. -/
def deleteCategory (s : Store) (uid cid : Nat) : Resp × Store :=
  match findActiveCategory s cid uid with
  | none => (⟨404, false, "Category not found"⟩, s)
  | some cat =>
    if cat.isDefault then
      (⟨400, false, "Cannot delete default categories"⟩, s)
    else
      (⟨200, true, "Category deleted successfully"⟩,
       { s with categories := s.categories.map (fun c =>
           if c.id == cid then { c with isActive := false } else c) })

/-- The seed list of `POST /api/categories/defaults`
(categories.js lines 294-312), instantiated for user `uid` with fresh
ids `baseId, baseId+1, ...`; every entry has `isDefault: true` and the
schema defaults `isActive: true`, `description` unset. -/
def defaultCategories (uid baseId : Nat) : List Category :=
  [ ⟨baseId,      uid, "Salary",           .income,  "briefcase", "#10B981", none, true, true⟩,
    ⟨baseId + 1,  uid, "Freelance",        .income,  "laptop",    "#3B82F6", none, true, true⟩,
    ⟨baseId + 2,  uid, "Investment",       .income,  "chart",     "#8B5CF6", none, true, true⟩,
    ⟨baseId + 3,  uid, "Business",         .income,  "office",    "#F59E0B", none, true, true⟩,
    ⟨baseId + 4,  uid, "Other Income",     .income,  "moneybag",  "#6B7280", none, true, true⟩,
    ⟨baseId + 5,  uid, "Food & Dining",    .expense, "plate",     "#EF4444", none, true, true⟩,
    ⟨baseId + 6,  uid, "Transportation",   .expense, "car",       "#3B82F6", none, true, true⟩,
    ⟨baseId + 7,  uid, "Shopping",         .expense, "bags",      "#8B5CF6", none, true, true⟩,
    ⟨baseId + 8,  uid, "Entertainment",    .expense, "clapper",   "#F59E0B", none, true, true⟩,
    ⟨baseId + 9,  uid, "Bills & Utilities", .expense, "bulb",     "#10B981", none, true, true⟩,
    ⟨baseId + 10, uid, "Healthcare",       .expense, "hospital",  "#EF4444", none, true, true⟩,
    ⟨baseId + 11, uid, "Education",        .expense, "books",     "#3B82F6", none, true, true⟩,
    ⟨baseId + 12, uid, "Travel",           .expense, "plane",     "#8B5CF6", none, true, true⟩,
    ⟨baseId + 13, uid, "Other Expense",    .expense, "banknotes", "#6B7280", none, true, true⟩ ]

/-- `Category.countDocuments including user: uid` — note: no `isActive`
filter, so soft-deleted categories count too. -/
def userCategoryCount (s : Store) (uid : Nat) : Nat :=
  (s.categories.filter (fun c => c.user == uid)).length

/-- `POST /api/categories/defaults` (categories.js lines 282-332): refuse
with a 400 when the user already owns any category (active or not),
otherwise `insertMany` the seed list. -/
def createDefaultCategories (s : Store) (uid baseId : Nat) : Resp × Store :=
  if userCategoryCount s uid > 0 then
    (⟨400, false, "User already has categories"⟩, s)
  else
    (⟨201, true, "Default categories created successfully"⟩,
     { s with categories := s.categories ++ defaultCategories uid baseId })

/-- A `POST /api/transactions` request body (fields after the
express-validator stage; `none` marks an absent optional field). -/
structure TxCreateBody where
  title : String
  amount : ℚ
  type : CatType
  category : Nat
  date : Option Int
  description : Option String
  tags : Option (List String)
  notes : Option String
  location : Option Location
  isRecurring : Option Bool
  recurringPattern : Option RecurringPattern
deriving DecidableEq, Repr

/-- The express-validator chain of `POST /api/transactions`
(transaction router lines 149-182): title length, `amount >= 0.01`,
description and notes length caps (type, category id and date formats
are carried by the types of the embedding). -/
def validTxCreateBody (b : TxCreateBody) : Bool :=
  1 ≤ (jsTrim b.title).length && (jsTrim b.title).length ≤ 100 &&
  (1 / 100 : ℚ) ≤ b.amount &&
  (match b.description with
   | some d => (jsTrim d).length ≤ 500
   | none => true) &&
  (match b.notes with
   | some n => (jsTrim n).length ≤ 1000
   | none => true)

/-- The `transactionSchema.pre` save hook (transaction model lines
322-344): on a new document (or one whose category was modified), load
the category by `_id` and `user`; missing membership and a type mismatch
each abort the save with a 400 error. -/
def transactionPreSave (s : Store) (t : Transaction) : Option Resp :=
  match s.categories.find? (fun c => c.id == t.category && c.user == t.user) with
  | none => some ⟨400, false, "Category not found or does not belong to user"⟩
  | some cat =>
    if t.type != cat.type then
      some ⟨400, false, "Transaction type must match category type"⟩
    else
      none

/-- `POST /api/transactions` (transaction router lines 149-262): validate,
check the category (`findOne` on id, user, type and `isActive: true`),
build the document with schema defaults, then `Transaction.create`,
which runs the pre-save hook. -/
def createTransaction (s : Store) (uid : Nat) (b : TxCreateBody)
    (freshId : Nat) (now : Int) : Resp × Store :=
  if !(validTxCreateBody b) then
    (⟨400, false, "Validation failed"⟩, s)
  else
    match s.categories.find? (fun c =>
        c.id == b.category && c.user == uid &&
        decide (c.type = b.type) && c.isActive) with
    | none => (⟨400, false, "Invalid category or category type mismatch"⟩, s)
    | some _ =>
      let t : Transaction :=
        { id := freshId, user := uid, title := b.title,
          description := b.description, amount := b.amount, type := b.type,
          category := b.category, date := b.date.getD now,
          tags := b.tags.getD [], location := b.location,
          isRecurring := b.isRecurring.getD false,
          recurringPattern :=
            if b.isRecurring.getD false then b.recurringPattern else none,
          status := .completed, notes := b.notes }
      match transactionPreSave s t with
      | some err => (err, s)
      | none =>
        (⟨201, true, "Transaction created successfully"⟩,
         { s with transactions := s.transactions ++ [t] })

/-- A `PUT /api/transactions/:id` request body.  `type`, `status` and
`user` can be present in the request but are outside `allowedUpdates`. -/
structure TxUpdateBody where
  title : Option String
  amount : Option ℚ
  category : Option Nat
  date : Option Int
  description : Option String
  tags : Option (List String)
  notes : Option String
  location : Option Location
  isRecurring : Option Bool
  recurringPattern : Option RecurringPattern
  type : Option CatType
  status : Option TxStatus
  user : Option Nat
deriving DecidableEq, Repr

/-- The express-validator chain of `PUT /api/transactions/:id`
(transaction router lines 267-299). -/
def validTxUpdateBody (b : TxUpdateBody) : Bool :=
  (match b.title with
   | some t => 1 ≤ (jsTrim t).length && (jsTrim t).length ≤ 100
   | none => true) &&
  (match b.amount with
   | some a => (1 / 100 : ℚ) ≤ a
   | none => true) &&
  (match b.description with
   | some d => (jsTrim d).length ≤ 500
   | none => true) &&
  (match b.notes with
   | some n => (jsTrim n).length ≤ 1000
   | none => true)

/-- The `allowedUpdates` filter of `PUT /api/transactions/:id`
(transaction router lines 339-349): exactly title, amount, category,
date, description, tags, notes, location, isRecurring and
recurringPattern are copied when present; `type`, `status` and `user`
are never copied. -/
def applyTxUpdates (t : Transaction) (b : TxUpdateBody) : Transaction :=
  { t with
    title := b.title.getD t.title,
    amount := b.amount.getD t.amount,
    category := b.category.getD t.category,
    date := b.date.getD t.date,
    description := match b.description with
      | some d => some d
      | none => t.description,
    tags := b.tags.getD t.tags,
    notes := match b.notes with
      | some n => some n
      | none => t.notes,
    location := match b.location with
      | some l => some l
      | none => t.location,
    isRecurring := b.isRecurring.getD t.isRecurring,
    recurringPattern := match b.recurringPattern with
      | some p => some p
      | none => t.recurringPattern }

/-- `PUT /api/transactions/:id` (transaction router lines 267-379):
validate, resolve the transaction of the caller, check a newly supplied
category for ownership and `isActive` only (no type comparison), then
apply the `allowedUpdates` via `findByIdAndUpdate` — which does not run
the `save` hook. -/
def updateTransaction (s : Store) (uid tid : Nat) (b : TxUpdateBody) :
    Resp × Store :=
  if !(validTxUpdateBody b) then
    (⟨400, false, "Validation failed"⟩, s)
  else
    match s.transactions.find? (fun t => t.id == tid && t.user == uid) with
    | none => (⟨404, false, "Transaction not found"⟩, s)
    | some _ =>
      let catOk :=
        match b.category with
        | none => true
        | some c => (findActiveCategory s c uid).isSome
      if catOk then
        (⟨200, true, "Transaction updated successfully"⟩,
         { s with transactions := s.transactions.map (fun t =>
             if t.id == tid then applyTxUpdates t b else t) })
      else
        (⟨400, false, "Invalid category"⟩, s)

/-- `Number.prototype.toFixed(2)` on a rational, read back as a rational:
round to the nearest hundredth, ties to the larger value. -/
def toFixed2 (q : ℚ) : ℚ :=
  (round (q * 100) : ℤ) / 100

/-- The percentage pass of `GET /api/analytics/categories` (analytics
router lines 285-289) applied to the per-category totals of a breakdown:
`cat.percentage = totalAmount > 0 ? (cat.total / totalAmount * 100).toFixed(2) : 0`. -/
def categoryPercentages (totals : List ℚ) : List ℚ :=
  let totalAmount := totals.sum
  totals.map (fun t => if 0 < totalAmount then toFixed2 (t / totalAmount * 100) else 0)

/-- A store used by witness instantiations: one user owning an income
category, an expense category and one income transaction. -/
def wUser : User :=
  { id := 1, name := "Alice", email := "alice@example.com",
    password := "storedhash", avatar := "", phone := "", currency := "USD",
    timezone := "UTC", isEmailVerified := true, isActive := true,
    isTwoFactorEnabled := true, otpCode := some "123456",
    otpExpires := some 1000000, emailChangeOTP := some "654321",
    emailChangeOTPExpires := some 1000000,
    pendingEmail := some "fresh@example.com" }

/-- An active income category of user 1. -/
def wCatIncome : Category :=
  { id := 1, user := 1, name := "Salary", type := .income, icon := "i",
    color := "#10B981", description := none, isDefault := false,
    isActive := true }

/-- An active expense category of user 1. -/
def wCatExpense : Category :=
  { id := 2, user := 1, name := "Food", type := .expense, icon := "f",
    color := "#EF4444", description := none, isDefault := false,
    isActive := true }

/-- An income transaction of user 1 referencing the income category. -/
def wTx : Transaction :=
  { id := 1, user := 1, title := "pay", description := none, amount := 5,
    type := .income, category := 1, date := 0, tags := [], location := none,
    isRecurring := false, recurringPattern := none, status := .completed,
    notes := none }

/-- The witness store. -/
def wStore : Store :=
  { users := [wUser], categories := [wCatIncome, wCatExpense],
    transactions := [wTx] }

/-- A default (seeded) active category of user 1, for witnesses. -/
def wCatDefault : Category :=
  { id := 3, user := 1, name := "Business", type := .income, icon := "b",
    color := "#F59E0B", description := none, isDefault := true,
    isActive := true }

/-- A witness store whose only category is a default one. -/
def wStoreD : Store :=
  { users := [wUser], categories := [wCatDefault], transactions := [] }

/-- User 1 in the reachable absent-code state of the email-change flow:
no pending request, so `pendingEmail` and the OTP pair are all unset
(the handlers set and clear them together). -/
def wUserNoPending : User :=
  { wUser with pendingEmail := none, emailChangeOTP := none,
               emailChangeOTPExpires := none }

/-- A store whose only user has no pending email change. -/
def wStoreNP : Store :=
  { users := [wUserNoPending], categories := [], transactions := [] }

/-- A create body whose category (the income category 1) mismatches its
expense type, for the C1 witness. -/
def wCreateBody : TxCreateBody :=
  { title := "x", amount := 5, type := .expense, category := 1,
    date := some 0, description := none, tags := none, notes := none,
    location := none, isRecurring := none, recurringPattern := none }

/-- The `PUT /api/transactions/:id` body used to exhibit the unchecked
type mismatch: it only moves the transaction to the expense category. -/
def cexTxBody : TxUpdateBody :=
  { title := none, amount := none, category := some 2, date := none,
    description := none, tags := none, notes := none, location := none,
    isRecurring := none, recurringPattern := none, type := none,
    status := none, user := none }

end IncomeExpense

namespace IncomeExpense

lemma find?_set_id (l : List User) (u : User) (uid : Nat) (hu : u.id = uid)
    (h : (l.find? (fun v => v.id == uid)).isSome = true) :
    (l.map (fun v => if v.id == u.id then u else v)).find?
      (fun v => v.id == uid) = some u := by
  subst hu
  induction l with
  | nil => simp at h
  | cons a as ih =>
    by_cases hb : a.id = u.id
    · simp [List.map_cons, hb]
    · have hb2 : (a.id == u.id) = false := by simp [hb]
      simp only [List.find?_cons, hb2, List.map_cons, Bool.false_eq_true,
        if_false] at h ⊢
      exact ih h

lemma findUser_saveUser (s : Store) (u w : User) (uid : Nat)
    (hu : u.id = uid) (h : findUser s uid = some w) :
    findUser (saveUser s u) uid = some u := by
  unfold findUser saveUser at *
  exact find?_set_id s.users u uid hu (by rw [h]; rfl)

lemma findUser_id (s : Store) (u : User) (uid : Nat)
    (h : findUser s uid = some u) : u.id = uid := by
  unfold findUser at h
  have := List.find?_some h
  simpa using this

/-- C5 states the generated OTP is uniform on the closed interval
100000..999999, but `crypto.randomInt(min, max)` excludes its upper
bound: 999999 is never produced. -/
theorem C5_counterexample :
    999999 ∉ Set.range (randomInt 100000 999999) ∧
    randomInt 100000 999999 0 = 100000 := by
  constructor
  · rintro ⟨r, hr⟩
    unfold randomInt at hr
    omega
  · rfl

/-- C5 (amended): every generated login OTP and email-change OTP is the
decimal string of `crypto.randomInt(100000, 999999)`, a value uniformly
random on the half-open interval 100000..999998 inclusive (the bound
999999 is exclusive) — every value of that interval is attainable and no
other — and the paired expiry is set ten minutes (600000 ms) in the
future. -/
theorem C5_otp_generation :
    (∀ (u : User) (r : Nat) (now : Int),
      ((u.generateOTP r now).2.otpCode = some (otpFromEntropy r) ∧
       (u.generateOTP r now).2.otpExpires = some (now + 10 * 60 * 1000) ∧
       (u.generateOTP r now).1 = otpFromEntropy r) ∧
      ((u.generateEmailChangeOTP r now).2.emailChangeOTP = some (otpFromEntropy r) ∧
       (u.generateEmailChangeOTP r now).2.emailChangeOTPExpires =
         some (now + 10 * 60 * 1000) ∧
       (u.generateEmailChangeOTP r now).1 = otpFromEntropy r)) ∧
    (∀ r : Nat,
      100000 ≤ randomInt 100000 999999 r ∧ randomInt 100000 999999 r ≤ 999998) ∧
    (∀ n : Nat, 100000 ≤ n → n ≤ 999998 →
      ∃ r, randomInt 100000 999999 r = n) := by
  refine ⟨fun u r now => ⟨⟨rfl, rfl, rfl⟩, ⟨rfl, rfl, rfl⟩⟩, fun r => ?_, ?_⟩
  · unfold randomInt
    omega
  · intro n hlo hhi
    refine ⟨n - 100000, ?_⟩
    unfold randomInt
    omega

theorem C5_otp_generation_witness :
    100000 ≤ 123456 ∧ 123456 ≤ 999998 ∧
    ∃ r, randomInt 100000 999999 r = 123456 :=
  ⟨by norm_num, by norm_num,
   C5_otp_generation.2.2 123456 (by norm_num) (by norm_num)⟩

/-- C10: a profile update carrying currency BDT always fails validation
with a 400 and changes nothing, although BDT is a member of the user
schema's currency enum — the value is unreachable through this
endpoint. -/
theorem C10_bdt_unreachable :
    (∀ (s : Store) (uid : Nat) (nm ph tz : Option String),
      updateProfile s uid ⟨nm, ph, some "BDT", tz⟩ =
        (⟨400, false, "Validation failed"⟩, s)) ∧
    "BDT" ∈ userCurrencyEnum ∧ "BDT" ∉ profileCurrencies := by
  refine ⟨fun s uid nm ph tz => ?_, by decide, by decide⟩
  have hv : validProfileBody ⟨nm, ph, some "BDT", tz⟩ = false := by
    have hc : profileCurrencies.contains "BDT" = false := by decide
    simp only [validProfileBody, hc, Bool.false_and, Bool.and_false]
  unfold updateProfile
  rw [hv]
  simp

/-- C6: the seed-defaults operation refuses with a 400 and no change
whenever the user already owns any category, soft-deleted ones included,
and a second call always fails leaving the count of the first call. -/
theorem C6_defaults_idempotent :
    (∀ (s : Store) (uid baseId : Nat),
      userCategoryCount s uid > 0 →
      createDefaultCategories s uid baseId =
        (⟨400, false, "User already has categories"⟩, s)) ∧
    (∀ (s : Store) (uid b1 b2 : Nat),
      createDefaultCategories (createDefaultCategories s uid b1).2 uid b2 =
        (⟨400, false, "User already has categories"⟩,
         (createDefaultCategories s uid b1).2)) := by
  constructor
  · intro s uid baseId h
    unfold createDefaultCategories
    simp [h]
  · intro s uid b1 b2
    by_cases h : userCategoryCount s uid > 0
    · have h1 : createDefaultCategories s uid b1 =
          (⟨400, false, "User already has categories"⟩, s) := by
        unfold createDefaultCategories
        simp [h]
      rw [h1]
      unfold createDefaultCategories
      simp [h]
    · have h1 : (createDefaultCategories s uid b1).2 =
          { s with categories := s.categories ++ defaultCategories uid b1 } := by
        unfold createDefaultCategories
        simp [h]
      have h2 : userCategoryCount
          { s with categories := s.categories ++ defaultCategories uid b1 } uid > 0 := by
        unfold userCategoryCount
        simp only [List.filter_append, List.length_append, defaultCategories]
        simp
      rw [h1]
      unfold createDefaultCategories
      simp [h2]

theorem C6_defaults_idempotent_witness :
    userCategoryCount wStore 1 > 0 ∧
    createDefaultCategories wStore 1 10 =
      (⟨400, false, "User already has categories"⟩, wStore) :=
  ⟨by decide, C6_defaults_idempotent.1 wStore 1 10 (by decide)⟩

/-- C4: account deletion re-verifies the supplied password (absent or
wrong: 400 and no mutation) and on success removes every transaction and
category owned by the account and the account row itself, leaving no row
referencing the user id and the account unfetchable. -/
theorem C4_cascading_delete :
    ∀ (compare : String → String → Bool) (s : Store) (uid : Nat)
      (pw : Option String) (user : User),
      findUser s uid = some user →
      ((pw = none ∨ pw = some "") →
        deleteAccount compare s uid pw =
          (⟨400, false, "Password is required to delete account"⟩, s)) ∧
      (∀ p : String, pw = some p → p ≠ "" →
        compare p user.password = false →
        deleteAccount compare s uid pw =
          (⟨400, false, "Invalid password"⟩, s)) ∧
      (∀ p : String, pw = some p → p ≠ "" →
        compare p user.password = true →
        (deleteAccount compare s uid pw).1 =
          ⟨200, true, "Account and all associated data deleted successfully"⟩ ∧
        (∀ t ∈ (deleteAccount compare s uid pw).2.transactions, t.user ≠ uid) ∧
        (∀ c ∈ (deleteAccount compare s uid pw).2.categories, c.user ≠ uid) ∧
        findUser (deleteAccount compare s uid pw).2 uid = none) := by
  intro compare s uid pw user hu
  refine ⟨?_, ?_, ?_⟩
  · rintro (rfl | rfl) <;> simp [deleteAccount]
  · intro p hp hne hcmp
    subst hp
    have h1 : ((some p).isNone || some p == some "") = false := by
      simp [hne]
    unfold deleteAccount
    simp [h1, hu, hcmp, hne]
  · intro p hp hne hcmp
    subst hp
    have h1 : ((some p).isNone || some p == some "") = false := by
      simp [hne]
    have hres : deleteAccount compare s uid (some p) =
        (⟨200, true, "Account and all associated data deleted successfully"⟩,
         { users := s.users.filter (fun u => u.id != uid),
           categories := s.categories.filter (fun c => c.user != uid),
           transactions := s.transactions.filter (fun t => t.user != uid) }) := by
      unfold deleteAccount
      simp [h1, hu, hcmp, hne]
    rw [hres]
    refine ⟨rfl, ?_, ?_, ?_⟩
    · intro t ht
      have := (List.mem_filter.mp ht).2
      simpa using this
    · intro c hc
      have := (List.mem_filter.mp hc).2
      simpa using this
    · unfold findUser
      rw [List.find?_eq_none]
      intro x hx
      have := (List.mem_filter.mp hx).2
      simpa using this

theorem C4_cascading_delete_witness :
    (deleteAccount (fun _ _ => true) wStore 1 (some "pw")).1.status = 200 ∧
    findUser (deleteAccount (fun _ _ => true) wStore 1 (some "pw")).2 1 = none ∧
    deleteAccount (fun _ _ => false) wStore 1 (some "pw") =
      (⟨400, false, "Invalid password"⟩, wStore) := by
  have h := C4_cascading_delete (fun _ _ => true) wStore 1 (some "pw") wUser rfl
  have h3 := h.2.2 "pw" rfl (by decide) rfl
  have g := C4_cascading_delete (fun _ _ => false) wStore 1 (some "pw") wUser rfl
  exact ⟨by rw [h3.1], h3.2.2.2, g.2.1 "pw" rfl (by decide) rfl⟩

/-- C7: update and delete both refuse a default category with a 400 and
leave the store unchanged; a successful delete only flips the category's
isActive flag to false, physically removing nothing and altering no
other field of any category. -/
theorem C7_default_category_protection :
    ∀ (s : Store) (uid cid : Nat) (b : CatUpdateBody) (cat : Category),
      findActiveCategory s cid uid = some cat →
      (cat.isDefault = true →
        ((updateCategory s uid cid b).1.status = 400 ∧
         (updateCategory s uid cid b).2 = s) ∧
        deleteCategory s uid cid =
          (⟨400, false, "Cannot delete default categories"⟩, s)) ∧
      (cat.isDefault = false →
        deleteCategory s uid cid =
          (⟨200, true, "Category deleted successfully"⟩,
           { s with categories := s.categories.map (fun c =>
               if c.id == cid then { c with isActive := false } else c) }) ∧
        (deleteCategory s uid cid).2.categories.length =
          s.categories.length) := by
  intro s uid cid b cat hfind
  constructor
  · intro hdef
    refine ⟨?_, ?_⟩
    · cases hv : validCatUpdateBody b with
      | false =>
        unfold updateCategory
        rw [hv]
        simp
      | true =>
        unfold updateCategory
        rw [hv]
        simp [hfind, hdef]
    · unfold deleteCategory
      simp [hfind, hdef]
  · intro hdef
    have hres : deleteCategory s uid cid =
        (⟨200, true, "Category deleted successfully"⟩,
         { s with categories := s.categories.map (fun c =>
             if c.id == cid then { c with isActive := false } else c) }) := by
      unfold deleteCategory
      simp [hfind, hdef]
    rw [hres]
    simp

theorem C7_default_category_protection_witness :
    (updateCategory wStoreD 1 3 ⟨some "New", none, none, none⟩).2 = wStoreD ∧
    deleteCategory wStoreD 1 3 =
      (⟨400, false, "Cannot delete default categories"⟩, wStoreD) ∧
    (deleteCategory wStore 1 2).1.success = true ∧
    (deleteCategory wStore 1 2).2.categories.length = 2 := by
  have h := C7_default_category_protection wStoreD 1 3
    ⟨some "New", none, none, none⟩ wCatDefault rfl
  have h1 := h.1 rfl
  have g := C7_default_category_protection wStore 1 2
    ⟨none, none, none, none⟩ wCatExpense rfl
  have g1 := g.2 rfl
  refine ⟨h1.1.2, h1.2, by rw [g1.1], ?_⟩
  rw [g1.2]
  decide

lemma updateTransaction_success (s : Store) (uid tid : Nat) (b : TxUpdateBody)
    (h : (updateTransaction s uid tid b).1.status = 200) :
    (updateTransaction s uid tid b).2 =
      { s with transactions := s.transactions.map (fun t =>
          if t.id == tid then applyTxUpdates t b else t) } := by
  unfold updateTransaction at h ⊢
  cases hv : validTxUpdateBody b with
  | false => rw [hv] at h; simp at h
  | true =>
    rw [hv] at h
    simp only [Bool.not_true, Bool.false_eq_true, if_false] at h ⊢
    cases hf : s.transactions.find? (fun t => t.id == tid && t.user == uid) with
    | none => rw [hf] at h; simp at h
    | some t0 =>
      rw [hf] at h
      cases hc : (match b.category with
        | none => true
        | some c => (findActiveCategory s c uid).isSome) with
      | false => rw [hc] at h; simp at h
      | true => rfl

/-- C9: a successful transaction update rewrites exactly the target
document through the allowedUpdates filter, and that filter never
touches `type`, `status` or `user`: those three fields of every stored
transaction are unchanged whatever the request body contained. -/
theorem C9_put_preserves_type_status_user :
    ∀ (s : Store) (uid tid : Nat) (b : TxUpdateBody),
      (updateTransaction s uid tid b).1.status = 200 →
      (updateTransaction s uid tid b).2.transactions =
        s.transactions.map (fun t =>
          if t.id == tid then applyTxUpdates t b else t) ∧
      (∀ t : Transaction,
        (applyTxUpdates t b).type = t.type ∧
        (applyTxUpdates t b).status = t.status ∧
        (applyTxUpdates t b).user = t.user) ∧
      (updateTransaction s uid tid b).2.transactions.length =
        s.transactions.length ∧
      (∀ i : Nat, ∀ h1 : i < s.transactions.length,
        ∀ h2 : i < (updateTransaction s uid tid b).2.transactions.length,
        ((updateTransaction s uid tid b).2.transactions.get ⟨i, h2⟩).type =
          (s.transactions.get ⟨i, h1⟩).type ∧
        ((updateTransaction s uid tid b).2.transactions.get ⟨i, h2⟩).status =
          (s.transactions.get ⟨i, h1⟩).status ∧
        ((updateTransaction s uid tid b).2.transactions.get ⟨i, h2⟩).user =
          (s.transactions.get ⟨i, h1⟩).user) := by
  intro s uid tid b h
  have hs := updateTransaction_success s uid tid b h
  rw [hs]
  refine ⟨rfl, fun t => ⟨rfl, rfl, rfl⟩, by simp, ?_⟩
  intro i h1 h2
  simp only [List.get_eq_getElem, List.getElem_map]
  refine ⟨?_, ?_, ?_⟩ <;> (split <;> rfl)

theorem C9_put_preserves_type_status_user_witness :
    (updateTransaction wStore 1 1 cexTxBody).1.status = 200 ∧
    (updateTransaction wStore 1 1 cexTxBody).2.transactions.length =
      wStore.transactions.length := by
  have h200 : (updateTransaction wStore 1 1 cexTxBody).1.status = 200 := by decide
  exact ⟨h200,
    (C9_put_preserves_type_status_user wStore 1 1 cexTxBody h200).2.2.1⟩

lemma verifyEmailChange_no_pending (s : Store) (uid : Nat) (u : User)
    (hU : findUser s uid = some u) (hp : u.pendingEmail = none)
    (otp : String) (now : Int) :
    (verifyEmailChange s uid otp now).1.status = 400 ∧
    (verifyEmailChange s uid otp now).2 = s := by
  unfold verifyEmailChange
  cases hlen : (otp == "" || otp.length != 6) with
  | true => exact ⟨rfl, rfl⟩
  | false =>
    simp [hU, hp]

/-- C2: when the notification send fails during request-email-change,
the handler rolls the staged state back — pendingEmail and the OTP pair
are cleared, the primary email is untouched — and any subsequent
verify-email-change call fails with a 400 changing nothing. -/
theorem C2_email_change_rollback :
    ∀ (s : Store) (uid : Nat) (newEmail : String) (r : Nat) (now : Int)
      (user : User),
      findUser s uid = some user →
      isEmailLike newEmail = true →
      (jsToLower newEmail == jsToLower user.email) = false →
      s.users.any (fun u => u.email == jsToLower newEmail) = false →
      (requestEmailChange s uid newEmail false r now).1.status = 500 ∧
      (∃ u2 : User,
        findUser (requestEmailChange s uid newEmail false r now).2 uid = some u2 ∧
        u2.pendingEmail = none ∧ u2.emailChangeOTP = none ∧
        u2.emailChangeOTPExpires = none ∧ u2.email = user.email) ∧
      (∀ (otp : String) (now2 : Int),
        (verifyEmailChange (requestEmailChange s uid newEmail false r now).2
          uid otp now2).1.status = 400 ∧
        (verifyEmailChange (requestEmailChange s uid newEmail false r now).2
          uid otp now2).2 =
          (requestEmailChange s uid newEmail false r now).2) := by
  intro s uid newEmail r now user hU hEmail hDiff hTaken
  have hid : user.id = uid := findUser_id s user uid hU
  have hres : requestEmailChange s uid newEmail false r now =
      (⟨500, false, "Failed to send verification email. Please try again."⟩,
       saveUser (saveUser s
         { user with emailChangeOTP := some (otpFromEntropy r),
                     emailChangeOTPExpires := some (now + tenMinutesMs),
                     pendingEmail := some (jsToLower newEmail) })
         { user with emailChangeOTP := none,
                     emailChangeOTPExpires := none,
                     pendingEmail := none }) := by
    unfold requestEmailChange User.generateEmailChangeOTP User.clearEmailChangeOTP
    simp [hEmail, hU, hDiff, hTaken]
  have hstep1 : findUser (saveUser s
      { user with emailChangeOTP := some (otpFromEntropy r),
                  emailChangeOTPExpires := some (now + tenMinutesMs),
                  pendingEmail := some (jsToLower newEmail) }) uid =
      some { user with emailChangeOTP := some (otpFromEntropy r),
                       emailChangeOTPExpires := some (now + tenMinutesMs),
                       pendingEmail := some (jsToLower newEmail) } :=
    findUser_saveUser s _ user uid hid hU
  have hstep2 : findUser (saveUser (saveUser s
      { user with emailChangeOTP := some (otpFromEntropy r),
                  emailChangeOTPExpires := some (now + tenMinutesMs),
                  pendingEmail := some (jsToLower newEmail) })
      { user with emailChangeOTP := none,
                  emailChangeOTPExpires := none,
                  pendingEmail := none }) uid =
      some { user with emailChangeOTP := none,
                       emailChangeOTPExpires := none,
                       pendingEmail := none } :=
    findUser_saveUser _ _ _ uid hid hstep1
  rw [hres]
  refine ⟨rfl, ⟨_, hstep2, rfl, rfl, rfl, rfl⟩, ?_⟩
  intro otp now2
  exact verifyEmailChange_no_pending _ uid _ hstep2 rfl otp now2

theorem C2_email_change_rollback_witness :
    (requestEmailChange wStore 1 "other@example.com" false 7 42).1.status = 500 ∧
    (verifyEmailChange
      (requestEmailChange wStore 1 "other@example.com" false 7 42).2
      1 "654321" 50).1.status = 400 := by
  have h := C2_email_change_rollback wStore 1 "other@example.com" 7 42 wUser
    rfl (by decide) (by decide) (by decide)
  exact ⟨h.1, (h.2.2 "654321" 50).1⟩

lemma verifyOTP_eq_false (u : User) (code : String) (now : Int)
    (h : u.otpCode = none ∨ (∃ e, u.otpExpires = some e ∧ e < now) ∨
         (∃ c, u.otpCode = some c ∧ c ≠ code)) :
    u.verifyOTP code now = false := by
  rcases h with h | ⟨e, he, hlt⟩ | ⟨c, hc, hne⟩
  · cases hoe : u.otpExpires <;> simp [User.verifyOTP, h, hoe]
  · cases hoc : u.otpCode with
    | none => simp [User.verifyOTP, hoc]
    | some c => simp [User.verifyOTP, hoc, he, hlt]
  · cases hoe : u.otpExpires with
    | none => simp [User.verifyOTP, hc, hoe]
    | some e =>
      simp only [User.verifyOTP, hc, hoe]
      split
      · rfl
      · simp [hne]

lemma verifyEmailChangeOTP_eq_false (u : User) (code : String) (now : Int)
    (h : u.emailChangeOTP = none ∨
         (∃ e, u.emailChangeOTPExpires = some e ∧ e < now) ∨
         (∃ c, u.emailChangeOTP = some c ∧ c ≠ code)) :
    u.verifyEmailChangeOTP code now = false := by
  rcases h with h | ⟨e, he, hlt⟩ | ⟨c, hc, hne⟩
  · cases hoe : u.emailChangeOTPExpires <;>
      simp [User.verifyEmailChangeOTP, h, hoe]
  · cases hoc : u.emailChangeOTP with
    | none => simp [User.verifyEmailChangeOTP, hoc]
    | some c => simp [User.verifyEmailChangeOTP, hoc, he, hlt]
  · cases hoe : u.emailChangeOTPExpires with
    | none => simp [User.verifyEmailChangeOTP, hc, hoe]
    | some e =>
      simp only [User.verifyEmailChangeOTP, hc, hoe]
      split
      · rfl
      · simp [hne]

/-- C3 claims all three OTP-verification failure cases are
observationally identical also for the email-change flow, but the
reachable absent-code state there (no pending request: `pendingEmail`
and the OTP pair are set and cleared together by the handlers) answers
400 "No pending email change request found", while a mismatched code
under a pending request answers 400 "Invalid or expired verification
code" — two distinguishable responses. -/
theorem C3_counterexample :
    wUserNoPending.emailChangeOTP = none ∧
    wUserNoPending.pendingEmail = none ∧
    (verifyEmailChange wStoreNP 1 "654321" 999).1.message =
      "No pending email change request found" ∧
    (verifyEmailChange wStore 1 "111111" 999).1.message =
      "Invalid or expired verification code" ∧
    (verifyEmailChange wStoreNP 1 "654321" 999).1 ≠
      (verifyEmailChange wStore 1 "111111" 999).1 := by decide

/-- C3 (amended): for the 2FA login flow an absent stored code, an
elapsed expiry and a mismatching submission fail with one identical
observable outcome, and the matching unexpired code succeeds exactly
once (the code is cleared, replay fails).  For the email-change flow the
failures split into two distinguishable 400 responses: with no pending
request — the reachable absent-code state — the handler answers "No
pending email change request found"; with a pending request an elapsed
expiry, a mismatch (or an absent stored code) answer "Invalid or expired
verification code".  In every failure case the store is unchanged; the
matching unexpired code under a pending request commits the new email,
clears the pair, and a replay fails. -/
theorem C3_otp_verification_amended :
    (∀ (s : Store) (uid : Nat) (user : User) (code : String) (now : Int),
      findUser s uid = some user →
      ((user.otpCode = none ∨
        (∃ e, user.otpExpires = some e ∧ e < now) ∨
        (∃ c, user.otpCode = some c ∧ c ≠ code)) →
        verifyLoginOTP s uid code now =
          (⟨400, false, "Invalid or expired OTP"⟩, s)) ∧
      (user.verifyOTP code now = true →
        (verifyLoginOTP s uid code now).1 = ⟨200, true, "Login successful"⟩ ∧
        findUser (verifyLoginOTP s uid code now).2 uid = some user.clearOTP ∧
        verifyLoginOTP (verifyLoginOTP s uid code now).2 uid code now =
          (⟨400, false, "Invalid or expired OTP"⟩,
           (verifyLoginOTP s uid code now).2))) ∧
    (∀ (s : Store) (uid : Nat) (user : User) (otp : String) (now : Int),
      findUser s uid = some user →
      user.pendingEmail = none →
      (otp == "") = false → (otp.length != 6) = false →
      verifyEmailChange s uid otp now =
        (⟨400, false, "No pending email change request found"⟩, s)) ∧
    (∀ (s : Store) (uid : Nat) (user : User) (pe otp : String) (now : Int),
      findUser s uid = some user →
      user.pendingEmail = some pe →
      (otp == "") = false → (otp.length != 6) = false →
      ((user.emailChangeOTP = none ∨
        (∃ e, user.emailChangeOTPExpires = some e ∧ e < now) ∨
        (∃ c, user.emailChangeOTP = some c ∧ c ≠ otp)) →
        verifyEmailChange s uid otp now =
          (⟨400, false, "Invalid or expired verification code"⟩, s)) ∧
      (user.verifyEmailChangeOTP otp now = true →
        (verifyEmailChange s uid otp now).1 =
          ⟨200, true, "Email updated successfully"⟩ ∧
        (∃ u2 : User,
          findUser (verifyEmailChange s uid otp now).2 uid = some u2 ∧
          u2.email = pe ∧ u2.emailChangeOTP = none ∧
          u2.emailChangeOTPExpires = none ∧ u2.pendingEmail = none) ∧
        (verifyEmailChange (verifyEmailChange s uid otp now).2
          uid otp now).1.status = 400 ∧
        (verifyEmailChange (verifyEmailChange s uid otp now).2
          uid otp now).2 = (verifyEmailChange s uid otp now).2)) := by
  refine ⟨?_, ?_, ?_⟩
  · intro s uid user code now hU
    have hid : user.id = uid := findUser_id s user uid hU
    constructor
    · intro hfail
      have hv : user.verifyOTP code now = false :=
        verifyOTP_eq_false user code now hfail
      unfold verifyLoginOTP
      simp [hU, hv]
    · intro hv
      have hres : verifyLoginOTP s uid code now =
          (⟨200, true, "Login successful"⟩, saveUser s user.clearOTP) := by
        unfold verifyLoginOTP
        simp [hU, hv]
      have hfind : findUser (saveUser s user.clearOTP) uid =
          some user.clearOTP :=
        findUser_saveUser s user.clearOTP user uid hid hU
      refine ⟨by rw [hres], by rw [hres]; exact hfind, ?_⟩
      rw [hres]
      have hv2 : (User.clearOTP user).verifyOTP code now = false :=
        verifyOTP_eq_false _ code now (Or.inl rfl)
      unfold verifyLoginOTP
      simp [hfind, hv2]
  · intro s uid user otp now hU hp hne hlen
    have hcond : (otp == "" || otp.length != 6) = false := by
      rw [hne, hlen]
      rfl
    unfold verifyEmailChange
    rw [hcond]
    simp [hU, hp]
  · intro s uid user pe otp now hU hpe hne hlen
    have hid : user.id = uid := findUser_id s user uid hU
    have hcond : (otp == "" || otp.length != 6) = false := by
      rw [hne, hlen]
      rfl
    constructor
    · intro hfail
      have hv : user.verifyEmailChangeOTP otp now = false :=
        verifyEmailChangeOTP_eq_false user otp now hfail
      unfold verifyEmailChange
      rw [hcond]
      simp [hU, hpe, hv]
    · intro hv
      have hres : verifyEmailChange s uid otp now =
          (⟨200, true, "Email updated successfully"⟩,
           saveUser s ({ user with
             email := pe, isEmailVerified := true, pendingEmail := none,
             emailChangeOTP := none, emailChangeOTPExpires := none })) := by
        unfold verifyEmailChange User.clearEmailChangeOTP
        rw [hcond]
        simp [hU, hpe, hv]
      have hfind : findUser (saveUser s
          ({ user with
             email := pe, isEmailVerified := true, pendingEmail := none,
             emailChangeOTP := none, emailChangeOTPExpires := none })) uid =
          some ({ user with
             email := pe, isEmailVerified := true, pendingEmail := none,
             emailChangeOTP := none, emailChangeOTPExpires := none }) :=
        findUser_saveUser s _ user uid hid hU
      refine ⟨by rw [hres], ⟨_, by rw [hres]; exact hfind, rfl, rfl, rfl, rfl⟩, ?_, ?_⟩
      · rw [hres]
        exact (verifyEmailChange_no_pending _ uid _ hfind rfl otp now).1
      · rw [hres]
        exact (verifyEmailChange_no_pending _ uid _ hfind rfl otp now).2

theorem C3_otp_verification_amended_witness :
    verifyLoginOTP wStore 1 "123456" 999 =
      (⟨200, true, "Login successful"⟩, (verifyLoginOTP wStore 1 "123456" 999).2) ∧
    verifyLoginOTP (verifyLoginOTP wStore 1 "123456" 999).2 1 "123456" 999 =
      (⟨400, false, "Invalid or expired OTP"⟩,
       (verifyLoginOTP wStore 1 "123456" 999).2) ∧
    verifyLoginOTP wStore 1 "000000" 999 =
      (⟨400, false, "Invalid or expired OTP"⟩, wStore) ∧
    verifyLoginOTP wStore 1 "123456" 2000000 =
      (⟨400, false, "Invalid or expired OTP"⟩, wStore) ∧
    verifyEmailChange wStoreNP 1 "654321" 999 =
      (⟨400, false, "No pending email change request found"⟩, wStoreNP) ∧
    verifyEmailChange wStore 1 "111111" 999 =
      (⟨400, false, "Invalid or expired verification code"⟩, wStore) ∧
    (verifyEmailChange wStore 1 "654321" 999).1 =
      ⟨200, true, "Email updated successfully"⟩ := by
  have h := (C3_otp_verification_amended.1 wStore 1 wUser "123456" 999 rfl).2
    (by decide)
  have hbad := (C3_otp_verification_amended.1 wStore 1 wUser "000000" 999 rfl).1
    (Or.inr (Or.inr ⟨"123456", rfl, by decide⟩))
  have hexp :=
    (C3_otp_verification_amended.1 wStore 1 wUser "123456" 2000000 rfl).1
    (Or.inr (Or.inl ⟨1000000, rfl, by decide⟩))
  have hnp := C3_otp_verification_amended.2.1 wStoreNP 1 wUserNoPending
    "654321" 999 rfl rfl (by decide) (by decide)
  have hmm := (C3_otp_verification_amended.2.2 wStore 1 wUser
    "fresh@example.com" "111111" 999 rfl rfl (by decide) (by decide)).1
    (Or.inr (Or.inr ⟨"654321", rfl, by decide⟩))
  have hec := (C3_otp_verification_amended.2.2 wStore 1 wUser
    "fresh@example.com" "654321" 999 rfl rfl (by decide) (by decide)).2
    (by decide)
  refine ⟨?_, h.2.2, hbad, hexp, hnp, hmm, hec.1⟩
  have h1 := h.1
  exact Prod.ext h1 rfl

/-- C1 as stated requires the type-match check on PUT when the category
changes, but the update path only checks ownership and activity: moving
the income transaction of `wStore` to the same user's active expense
category succeeds with a 200, persisting a transaction whose type
differs from its category's type. -/
theorem C1_counterexample :
    (updateTransaction wStore 1 1 cexTxBody).1.status = 200 ∧
    (findActiveCategory wStore 2 1).map Category.type =
      some CatType.expense ∧
    ((updateTransaction wStore 1 1 cexTxBody).2.transactions.map
      (fun t => (t.id, t.category, t.type))) = [(1, 2, CatType.income)] ∧
    (updateTransaction wStore 1 1 cexTxBody).2 ≠ wStore := by decide

/-- C1 (amended): POST /api/transactions succeeds only when the body's
category is an active category of the caller with the body's type —
otherwise it fails with a 400 and the store is unchanged.  PUT
/api/transactions/:id with a category in the body checks only that the
category is an active category of the caller (the type-match condition is
not enforced on update); when no such category exists the update fails
and the store is unchanged. -/
theorem C1_category_write_checks :
    (∀ (s : Store) (uid : Nat) (b : TxCreateBody) (fid : Nat) (now : Int),
      ((createTransaction s uid b fid now).1.status = 201 →
        ∃ c ∈ s.categories, c.id = b.category ∧ c.user = uid ∧
          c.type = b.type ∧ c.isActive = true) ∧
      ((¬ ∃ c ∈ s.categories, c.id = b.category ∧ c.user = uid ∧
          c.type = b.type ∧ c.isActive = true) →
        (createTransaction s uid b fid now).1.status = 400 ∧
        (createTransaction s uid b fid now).2 = s)) ∧
    (∀ (s : Store) (uid tid : Nat) (b : TxUpdateBody) (cid : Nat),
      b.category = some cid →
      ((updateTransaction s uid tid b).1.status = 200 →
        ∃ c ∈ s.categories, c.id = cid ∧ c.user = uid ∧ c.isActive = true) ∧
      ((¬ ∃ c ∈ s.categories, c.id = cid ∧ c.user = uid ∧
          c.isActive = true) →
        (updateTransaction s uid tid b).1.status ≠ 200 ∧
        (updateTransaction s uid tid b).2 = s)) := by
  constructor
  · intro s uid b fid now
    constructor
    · intro h
      unfold createTransaction at h
      cases hv : validTxCreateBody b with
      | false => rw [hv] at h; simp at h
      | true =>
        rw [hv] at h
        simp only [Bool.not_true, Bool.false_eq_true, if_false] at h
        cases hf : s.categories.find? (fun c =>
            c.id == b.category && c.user == uid &&
            decide (c.type = b.type) && c.isActive) with
        | none => rw [hf] at h; simp at h
        | some c =>
          have hm := List.mem_of_find?_eq_some hf
          have hp := List.find?_some hf
          simp only [Bool.and_eq_true, beq_iff_eq, decide_eq_true_eq] at hp
          exact ⟨c, hm, by tauto, by tauto, by tauto, by tauto⟩
    · intro hne
      have hf : s.categories.find? (fun c =>
          c.id == b.category && c.user == uid &&
          decide (c.type = b.type) && c.isActive) = none := by
        refine List.find?_eq_none.mpr ?_
        intro c hc hpc
        apply hne
        simp only [Bool.and_eq_true, beq_iff_eq, decide_eq_true_eq] at hpc
        exact ⟨c, hc, by tauto, by tauto, by tauto, by tauto⟩
      unfold createTransaction
      cases hv : validTxCreateBody b with
      | false => exact ⟨rfl, rfl⟩
      | true =>
        rw [hf]
        exact ⟨rfl, rfl⟩
  · intro s uid tid b cid hbcat
    constructor
    · intro h
      unfold updateTransaction at h
      cases hv : validTxUpdateBody b with
      | false => rw [hv] at h; simp at h
      | true =>
        rw [hv] at h
        simp only [Bool.not_true, Bool.false_eq_true, if_false] at h
        cases hf : s.transactions.find? (fun t =>
            t.id == tid && t.user == uid) with
        | none => rw [hf] at h; simp at h
        | some t0 =>
          rw [hf] at h
          simp only [hbcat] at h
          cases hfa : findActiveCategory s cid uid with
          | none => rw [hfa] at h; simp at h
          | some c =>
            unfold findActiveCategory at hfa
            have hm := List.mem_of_find?_eq_some hfa
            have hp := List.find?_some hfa
            simp only [Bool.and_eq_true, beq_iff_eq] at hp
            exact ⟨c, hm, by tauto, by tauto, by tauto⟩
    · intro hne
      have hfa : findActiveCategory s cid uid = none := by
        unfold findActiveCategory
        refine List.find?_eq_none.mpr ?_
        intro c hc hpc
        apply hne
        simp only [Bool.and_eq_true, beq_iff_eq] at hpc
        exact ⟨c, hc, by tauto, by tauto, by tauto⟩
      unfold updateTransaction
      cases hv : validTxUpdateBody b with
      | false => exact ⟨by simp, rfl⟩
      | true =>
        cases hf : s.transactions.find? (fun t =>
            t.id == tid && t.user == uid) with
        | none => exact ⟨by simp, rfl⟩
        | some t0 =>
          simp only [hbcat, hfa, Option.isSome_none, Bool.false_eq_true,
            if_false]
          exact ⟨by simp, rfl⟩

theorem C1_category_write_checks_witness :
    (¬ ∃ c ∈ wStore.categories, c.id = wCreateBody.category ∧ c.user = 1 ∧
        c.type = wCreateBody.type ∧ c.isActive = true) ∧
    (createTransaction wStore 1 wCreateBody 5 0).1.status = 400 ∧
    (createTransaction wStore 1 wCreateBody 5 0).2 = wStore ∧
    (updateTransaction wStore 1 1 cexTxBody).1.status = 200 ∧
    (∃ c ∈ wStore.categories, c.id = 2 ∧ c.user = 1 ∧ c.isActive = true) := by
  have hne : ¬ ∃ c ∈ wStore.categories, c.id = wCreateBody.category ∧
      c.user = 1 ∧ c.type = wCreateBody.type ∧ c.isActive = true := by decide
  have h := ((C1_category_write_checks.1 wStore 1 wCreateBody 5 0).2 hne)
  have h200 : (updateTransaction wStore 1 1 cexTxBody).1.status = 200 := by
    decide
  have hupd := (C1_category_write_checks.2 wStore 1 1 cexTxBody 2 rfl).1 h200
  exact ⟨hne, h.1, h.2, h200, hupd⟩

lemma abs_toFixed2_sub (q : ℚ) : |toFixed2 q - q| ≤ 1 / 200 := by
  unfold toFixed2
  have h : |q * 100 - round (q * 100)| ≤ 1 / 2 := abs_sub_round (q * 100)
  have h2 : ((round (q * 100) : ℤ) : ℚ) / 100 - q =
      -((q * 100 - ((round (q * 100) : ℤ) : ℚ)) / 100) := by ring
  rw [h2, abs_neg, abs_div, abs_of_pos (show (0 : ℚ) < 100 by norm_num)]
  linarith

lemma abs_sum_map_sub_sum (l : List ℚ) (f : ℚ → ℚ) (eps : ℚ)
    (h : ∀ x ∈ l, |f x - x| ≤ eps) :
    |(l.map f).sum - l.sum| ≤ l.length * eps := by
  induction l with
  | nil => simp
  | cons a as ih =>
    simp only [List.map_cons, List.sum_cons, List.length_cons]
    have ha := h a (by simp)
    have hih := ih (fun x hx => h x (by simp [hx]))
    have tri : |(f a + (as.map f).sum) - (a + as.sum)| ≤
        |f a - a| + |(as.map f).sum - as.sum| := by
      have he : (f a + (as.map f).sum) - (a + as.sum) =
          (f a - a) + ((as.map f).sum - as.sum) := by ring
      rw [he]
      exact abs_add _ _
    calc |(f a + (as.map f).sum) - (a + as.sum)|
        ≤ |f a - a| + |(as.map f).sum - as.sum| := tri
      _ ≤ eps + as.length * eps := add_le_add ha hih
      _ = ((as.length + 1 : ℕ) : ℚ) * eps := by push_cast; ring

lemma sum_map_div_mul (l : List ℚ) (T : ℚ) :
    (l.map (fun t => t / T * 100)).sum = l.sum / T * 100 := by
  induction l with
  | nil => simp
  | cons a as ih =>
    simp only [List.map_cons, List.sum_cons, ih]
    ring

/-- C8: in a non-empty breakdown of positive per-category totals, each
published percentage is the two-decimal rounding of total divided by the
grand total times 100 — within 0.01 of the exact ratio — the sum of the
percentages is 100 up to 0.01 per category accumulated, and when the
grand total is not positive every percentage is the guarded 0. -/
theorem C8_percentage_sum :
    (∀ totals : List ℚ, totals ≠ [] → (∀ t ∈ totals, 0 < t) →
      (categoryPercentages totals).length = totals.length ∧
      (∀ i : Nat, ∀ h1 : i < totals.length,
        ∀ h2 : i < (categoryPercentages totals).length,
        |(categoryPercentages totals).get ⟨i, h2⟩ -
          totals.get ⟨i, h1⟩ / totals.sum * 100| ≤ 1 / 100) ∧
      |(categoryPercentages totals).sum - 100| ≤
        (totals.length : ℚ) * (1 / 100)) ∧
    (∀ totals : List ℚ, totals.sum ≤ 0 →
      ∀ p ∈ categoryPercentages totals, p = 0) := by
  constructor
  · intro totals hne hpos
    have hT : 0 < totals.sum := List.sum_pos totals hpos hne
    have hTne : totals.sum ≠ 0 := ne_of_gt hT
    have hform : categoryPercentages totals =
        totals.map (fun t => toFixed2 (t / totals.sum * 100)) := by
      unfold categoryPercentages
      simp [hT]
    refine ⟨by rw [hform]; simp, ?_, ?_⟩
    · intro i h1 h2
      have hgi : (categoryPercentages totals).get ⟨i, h2⟩ =
          toFixed2 (totals.get ⟨i, h1⟩ / totals.sum * 100) := by
        have := List.get_of_eq hform ⟨i, h2⟩
        rw [this]
        simp [List.get_eq_getElem, List.getElem_map]
      rw [hgi]
      exact (abs_toFixed2_sub _).trans (by norm_num)
    · have hff : (fun t => toFixed2 (t / totals.sum * 100)) =
          toFixed2 ∘ (fun t => t / totals.sum * 100) := rfl
      rw [hform, hff, ← List.map_map]
      have hsum : (totals.map (fun t => t / totals.sum * 100)).sum = 100 := by
        rw [sum_map_div_mul, div_self hTne, one_mul]
      have happ : ∀ x ∈ totals.map (fun t => t / totals.sum * 100),
          |toFixed2 x - x| ≤ 1 / 200 := fun x _ => abs_toFixed2_sub x
      have hb := abs_sum_map_sub_sum
        (totals.map (fun t => t / totals.sum * 100)) toFixed2 (1 / 200) happ
      rw [hsum, List.length_map] at hb
      calc |(List.map toFixed2
              (totals.map (fun t => t / totals.sum * 100))).sum - 100|
          ≤ (totals.length : ℚ) * (1 / 200) := hb
        _ ≤ (totals.length : ℚ) * (1 / 100) := by
            apply mul_le_mul_of_nonneg_left (by norm_num) (by positivity)
  · intro totals hle p hp
    have hnlt : ¬ (0 < totals.sum) := not_lt.mpr hle
    simp only [categoryPercentages] at hp
    rcases List.mem_map.mp hp with ⟨x, _, hxe⟩
    rw [if_neg hnlt] at hxe
    exact hxe.symm

theorem C8_percentage_sum_witness :
    ([(1 : ℚ), 3] ≠ []) ∧ (∀ t ∈ [(1 : ℚ), 3], 0 < t) ∧
    |(categoryPercentages [(1 : ℚ), 3]).sum - 100| ≤
      (([(1 : ℚ), 3].length : ℚ)) * (1 / 100) := by
  have hp : ∀ t ∈ [(1 : ℚ), 3], 0 < t := by decide
  have h := C8_percentage_sum.1 [(1 : ℚ), 3] (by simp) hp
  exact ⟨by simp, hp, h.2.2⟩

end IncomeExpense
